import Mathlib

/-!
Verification of the background-animation core of the `tachibanayu24`
profile site.  The JavaScript modules are shallowly embedded:

* `src/background/time.js` — time-period classification and boundary
  transitions;
* `src/background/colors.js` — static palettes and transition blending;
* `src/background/effects/base-effect.js` — the effect lifecycle;
* `src/background/particles.js` — the parallax bokeh particle system;
* `src/background/renderer/index.js` — the frame-delta clamp of the
  animation loop;
* the rabbit mascot character — click interaction and period-derived
  behavioural state.

Modelling conventions: JavaScript numbers are exact rationals (ℚ);
`Math.sin` is passed as an oracle parameter `sinQ : ℚ → ℚ`; `Math.PI` is
the exact rational value of the IEEE-754 double; `Math.random()` draws
are threaded through an explicit stream of samples (`Rng`); a hex color
string is represented by the RGB channel record that `hexToRgb` parses
it to, and `rgbToHex` serialisation is represented by its clamp-and-round
on each channel.
-/

namespace Tachibana

/-- The four time periods (`TIME_PERIOD` in `src/background/time.js`). -/
inductive TimePeriod where
  | MORNING
  | NOON
  | EVENING
  | NIGHT
deriving DecidableEq, Fintype

open TimePeriod

/-- An hour range from `CONFIG.TIME_PERIODS`; the source field `end` is a
Lean keyword and is called `stop` here. -/
structure HourRange where
  start : ℕ
  stop : ℕ
deriving DecidableEq

/-- `CONFIG.TIME_PERIODS` from `src/background/config.js`. -/
def TIME_PERIODS : TimePeriod → HourRange
  | MORNING => ⟨5, 11⟩
  | NOON => ⟨11, 17⟩
  | EVENING => ⟨17, 20⟩
  | NIGHT => ⟨20, 5⟩

/-- `getTimePeriod` from `src/background/time.js`: classify an hour of the
24-hour clock; NIGHT is the fallback branch. -/
def getTimePeriod (hour : ℕ) : TimePeriod :=
  if (TIME_PERIODS MORNING).start ≤ hour ∧ hour < (TIME_PERIODS MORNING).stop then
    MORNING
  else if (TIME_PERIODS NOON).start ≤ hour ∧ hour < (TIME_PERIODS NOON).stop then
    NOON
  else if (TIME_PERIODS EVENING).start ≤ hour ∧ hour < (TIME_PERIODS EVENING).stop then
    EVENING
  else
    NIGHT

/-- Membership of an hour in a period's configured range.  NIGHT's range
`{start := 20, end := 5}` wraps past midnight, so its range is
`hour ≥ 20 ∨ hour < 5`. -/
def inPeriod (p : TimePeriod) (hour : ℕ) : Prop :=
  match p with
  | MORNING => (TIME_PERIODS MORNING).start ≤ hour ∧ hour < (TIME_PERIODS MORNING).stop
  | NOON => (TIME_PERIODS NOON).start ≤ hour ∧ hour < (TIME_PERIODS NOON).stop
  | EVENING => (TIME_PERIODS EVENING).start ≤ hour ∧ hour < (TIME_PERIODS EVENING).stop
  | NIGHT => (TIME_PERIODS NIGHT).start ≤ hour ∨ hour < (TIME_PERIODS NIGHT).stop

instance (p : TimePeriod) (hour : ℕ) : Decidable (inPeriod p hour) := by
  cases p <;> unfold inPeriod <;> infer_instance

/-- `easeInOutCubic` from `src/background/time.js`. -/
def easeInOutCubic (t : ℚ) : ℚ :=
  if t < 1/2 then 4 * t * t * t else 1 - (-2 * t + 2) ^ 3 / 2

/-- The result record of `getTimeTransition`. -/
structure TimeTransition where
  fromPeriod : TimePeriod
  toPeriod : TimePeriod
  factor : ℚ
deriving DecidableEq

/-- The `transitions` table built inside `getTimeTransition`:
(boundary hour, from period, to period). -/
def transitionTable : List (ℚ × TimePeriod × TimePeriod) :=
  [(((TIME_PERIODS MORNING).start : ℚ), NIGHT, MORNING),
   (((TIME_PERIODS NOON).start : ℚ), MORNING, NOON),
   (((TIME_PERIODS EVENING).start : ℚ), NOON, EVENING),
   (((TIME_PERIODS NIGHT).start : ℚ), EVENING, NIGHT)]

/-- The `for` loop of `getTimeTransition`: scan the transition table in
order and return at the first boundary within the window; the fallback
after the loop is the stationary transition for the current period. -/
def getTimeTransitionGo (hour : ℕ) (currentTime : ℚ) :
    List (ℚ × TimePeriod × TimePeriod) → TimeTransition
  | [] => { fromPeriod := getTimePeriod hour, toPeriod := getTimePeriod hour, factor := 1 }
  | (boundary, f, t) :: rest =>
    let transitionWindow : ℚ := 1/2
    let distance :=
      if boundary < 6 ∧ currentTime > 20 then currentTime - (boundary + 24)
      else currentTime - boundary
    if |distance| ≤ transitionWindow then
      let factor := (distance + transitionWindow) / (transitionWindow * 2)
      { fromPeriod := f, toPeriod := t,
        factor := easeInOutCubic (max 0 (min 1 factor)) }
    else getTimeTransitionGo hour currentTime rest

/-- `getTimeTransition` from `src/background/time.js` (lines 57-117), with
the wall-clock reading `new Date()` made explicit as hour and minutes. -/
def getTimeTransition (hour minutes : ℕ) : TimeTransition :=
  getTimeTransitionGo hour ((hour : ℚ) + (minutes : ℚ) / 60) transitionTable

/-- RGB channel record, the result of `hexToRgb`. -/
structure Rgb where
  r : ℤ
  g : ℤ
  b : ℤ
deriving DecidableEq

/-- One channel of `rgbToHex`: `Math.round(Math.max(0, Math.min(255, x)))`. -/
def rgbToHexChannel (x : ℚ) : ℤ :=
  round (max 0 (min 255 x))

/-- `interpolateColor` from `src/background/colors.js`: channel-wise linear
interpolation followed by the clamp-and-round of `rgbToHex`. -/
def interpolateColor (c1 c2 : Rgb) (factor : ℚ) : Rgb :=
  { r := rgbToHexChannel ((c1.r : ℚ) + ((c2.r : ℚ) - (c1.r : ℚ)) * factor),
    g := rgbToHexChannel ((c1.g : ℚ) + ((c2.g : ℚ) - (c1.g : ℚ)) * factor),
    b := rgbToHexChannel ((c1.b : ℚ) + ((c2.b : ℚ) - (c1.b : ℚ)) * factor) }

/-- RGBA record, the result of `parseRgbaColor`. -/
structure Rgba where
  r : ℤ
  g : ℤ
  b : ℤ
  a : ℚ
deriving DecidableEq

/-- The `a.toFixed(2)` serialisation of the alpha channel in
`interpolateRgbaColor`, modelled as rounding to two decimals. -/
def roundTo2 (a : ℚ) : ℚ :=
  (round (a * 100) : ℚ) / 100

/-- `interpolateRgbaColor` from `src/background/colors.js`: `Math.round` on
the RGB channels, linear blend of alpha serialised to two decimals. -/
def interpolateRgbaColor (c1 c2 : Rgba) (factor : ℚ) : Rgba :=
  { r := round ((c1.r : ℚ) + ((c2.r : ℚ) - (c1.r : ℚ)) * factor),
    g := round ((c1.g : ℚ) + ((c2.g : ℚ) - (c1.g : ℚ)) * factor),
    b := round ((c1.b : ℚ) + ((c2.b : ℚ) - (c1.b : ℚ)) * factor),
    a := roundTo2 (c1.a + (c2.a - c1.a) * factor) }

/-- Celestial body type. -/
inductive CelestialType where
  | sun
  | moon
deriving DecidableEq, Fintype

/-- Celestial body configuration from a palette entry. -/
structure CelestialConfig where
  type : CelestialType
  x : ℚ
  y : ℚ
  color : Rgba
  glowColor : Rgba
deriving DecidableEq

/-- Shadow pair from `CONFIG.SHADOWS`. -/
structure ShadowConfig where
  light : Rgba
  dark : Rgba
deriving DecidableEq

/-- A static entry of `TIME_PALETTES` (no shadows; those live in
`CONFIG.SHADOWS`). -/
structure StaticPalette where
  gradient : List Rgb
  bg : Rgb
  cardBg : Rgb
  text : Rgb
  textMuted : Rgb
  accent : Rgb
  celestial : CelestialConfig
  gradientAngle : ℚ
deriving DecidableEq

/-- `TIME_PALETTES` from `src/background/colors.js`, hex strings parsed to
RGB channel records. -/
def TIME_PALETTES : TimePeriod → StaticPalette
  | MORNING =>
    { gradient := [⟨0xFF, 0xFE, 0xF5⟩, ⟨0xFF, 0xFD, 0xE8⟩, ⟨0xFF, 0xFB, 0xD5⟩, ⟨0xF0, 0xF4, 0xFF⟩],
      bg := ⟨0xE8, 0xE6, 0xD6⟩,
      cardBg := ⟨0xE8, 0xE6, 0xD6⟩,
      text := ⟨0x3A, 0x3A, 0x35⟩,
      textMuted := ⟨0x6E, 0x6E, 0x65⟩,
      accent := ⟨0xB8, 0xAD, 0x45⟩,
      celestial := { type := .sun, x := -0.1, y := 0.9,
                     color := ⟨255, 255, 180, 0.5⟩, glowColor := ⟨255, 255, 150, 0.2⟩ },
      gradientAngle := 135 }
  | NOON =>
    { gradient := [⟨0x6B, 0xC4, 0xE8⟩, ⟨0x87, 0xCE, 0xEB⟩, ⟨0xA8, 0xD8, 0xF0⟩,
                   ⟨0xB8, 0xE0, 0xF5⟩, ⟨0xD0, 0xEC, 0xFA⟩],
      bg := ⟨0xE8, 0xEE, 0xF3⟩,
      cardBg := ⟨0xE8, 0xEE, 0xF3⟩,
      text := ⟨0x2D, 0x37, 0x48⟩,
      textMuted := ⟨0x71, 0x80, 0x96⟩,
      accent := ⟨0x4A, 0x6F, 0xA5⟩,
      celestial := { type := .sun, x := 0.5, y := -0.2,
                     color := ⟨255, 252, 230, 0.35⟩, glowColor := ⟨255, 248, 220, 0.18⟩ },
      gradientAngle := 180 }
  | EVENING =>
    { gradient := [⟨0xE8, 0xC4, 0xA8⟩, ⟨0xDD, 0xBA, 0xA0⟩, ⟨0xD4, 0xA9, 0x9A⟩,
                   ⟨0xC9, 0xA0, 0xA0⟩, ⟨0xB8, 0x9A, 0xA8⟩],
      bg := ⟨0xE8, 0xE0, 0xDC⟩,
      cardBg := ⟨0xE8, 0xE0, 0xDC⟩,
      text := ⟨0x4A, 0x40, 0x40⟩,
      textMuted := ⟨0x7A, 0x6B, 0x6B⟩,
      accent := ⟨0x8F, 0x5A, 0x4A⟩,
      celestial := { type := .sun, x := 1.1, y := 0.85,
                     color := ⟨230, 180, 140, 0.4⟩, glowColor := ⟨220, 160, 120, 0.15⟩ },
      gradientAngle := 45 }
  | NIGHT =>
    { gradient := [⟨0x0F, 0x16, 0x28⟩, ⟨0x16, 0x20, 0x35⟩, ⟨0x1A, 0x25, 0x40⟩, ⟨0x0D, 0x1A, 0x30⟩],
      bg := ⟨0x1E, 0x24, 0x30⟩,
      cardBg := ⟨0x25, 0x2D, 0x3A⟩,
      text := ⟨0xE0, 0xE5, 0xEC⟩,
      textMuted := ⟨0x8B, 0x95, 0xA5⟩,
      accent := ⟨0x5B, 0x7D, 0xB1⟩,
      celestial := { type := .moon, x := 1.0, y := -0.1,
                     color := ⟨200, 220, 255, 0.4⟩, glowColor := ⟨150, 180, 230, 0.12⟩ },
      gradientAngle := 180 }

/-- `CONFIG.SHADOWS` from `src/background/config.js`. -/
def CONFIG_SHADOWS : TimePeriod → ShadowConfig
  | MORNING => { light := ⟨255, 255, 248, 0.6⟩, dark := ⟨180, 175, 150, 0.35⟩ }
  | NOON => { light := ⟨255, 255, 255, 0.65⟩, dark := ⟨160, 175, 190, 0.35⟩ }
  | EVENING => { light := ⟨255, 220, 200, 0.5⟩, dark := ⟨140, 100, 80, 0.4⟩ }
  | NIGHT => { light := ⟨60, 80, 120, 0.4⟩, dark := ⟨10, 20, 40, 0.6⟩ }

/-- The full palette record returned by `getColorPalette` (the static
fields plus `shadows`, and the `timePeriod` tag attached by the spread
`{ ...TIME_PALETTES[timePeriod], timePeriod }`). -/
structure ColorPalette where
  gradient : List Rgb
  bg : Rgb
  cardBg : Rgb
  text : Rgb
  textMuted : Rgb
  accent : Rgb
  celestial : CelestialConfig
  gradientAngle : ℚ
  shadows : ShadowConfig
  timePeriod : TimePeriod
deriving DecidableEq

/-- The palette `getColorPalette` assembles when no blending applies:
the static `TIME_PALETTES` entry with `CONFIG.SHADOWS[timePeriod]`,
celestial and gradient angle attached (the `else` branch of the source). -/
def staticPalette (p : TimePeriod) : ColorPalette :=
  { gradient := (TIME_PALETTES p).gradient,
    bg := (TIME_PALETTES p).bg,
    cardBg := (TIME_PALETTES p).cardBg,
    text := (TIME_PALETTES p).text,
    textMuted := (TIME_PALETTES p).textMuted,
    accent := (TIME_PALETTES p).accent,
    shadows := CONFIG_SHADOWS p,
    celestial := (TIME_PALETTES p).celestial,
    gradientAngle := (TIME_PALETTES p).gradientAngle,
    timePeriod := p }

/-- `getColorPalette` from `src/background/colors.js` (lines 240-329).
The source's JS default arguments are `transitionFactor = 1` and
`previousTimePeriod = null`; both ifs in the source test the same
condition `previousTimePeriod && transitionFactor > 0 && transitionFactor < 1`
and are merged here.  The gradient blend indexes the previous palette's
gradient modulo its length, exactly as the source. -/
def getColorPalette (timePeriod : TimePeriod) (transitionFactor : ℚ)
    (previousTimePeriod : Option TimePeriod) : ColorPalette :=
  match previousTimePeriod with
  | some prev =>
    if 0 < transitionFactor ∧ transitionFactor < 1 then
      { gradient :=
          ((TIME_PALETTES timePeriod).gradient.enum.map fun ci =>
            interpolateColor
              ((TIME_PALETTES prev).gradient.getD
                (ci.1 % (TIME_PALETTES prev).gradient.length) ⟨0, 0, 0⟩)
              ci.2 transitionFactor),
        bg := interpolateColor (TIME_PALETTES prev).bg (TIME_PALETTES timePeriod).bg
          transitionFactor,
        cardBg := interpolateColor (TIME_PALETTES prev).cardBg
          (TIME_PALETTES timePeriod).cardBg transitionFactor,
        text := interpolateColor (TIME_PALETTES prev).text
          (TIME_PALETTES timePeriod).text transitionFactor,
        textMuted := interpolateColor (TIME_PALETTES prev).textMuted
          (TIME_PALETTES timePeriod).textMuted transitionFactor,
        accent := interpolateColor (TIME_PALETTES prev).accent
          (TIME_PALETTES timePeriod).accent transitionFactor,
        shadows :=
          { light := interpolateRgbaColor (CONFIG_SHADOWS prev).light
              (CONFIG_SHADOWS timePeriod).light transitionFactor,
            dark := interpolateRgbaColor (CONFIG_SHADOWS prev).dark
              (CONFIG_SHADOWS timePeriod).dark transitionFactor },
        gradientAngle := (TIME_PALETTES prev).gradientAngle +
          ((TIME_PALETTES timePeriod).gradientAngle -
            (TIME_PALETTES prev).gradientAngle) * transitionFactor,
        celestial :=
          { type := (TIME_PALETTES timePeriod).celestial.type,
            x := (TIME_PALETTES prev).celestial.x +
              ((TIME_PALETTES timePeriod).celestial.x -
                (TIME_PALETTES prev).celestial.x) * transitionFactor,
            y := (TIME_PALETTES prev).celestial.y +
              ((TIME_PALETTES timePeriod).celestial.y -
                (TIME_PALETTES prev).celestial.y) * transitionFactor,
            color := interpolateRgbaColor (TIME_PALETTES prev).celestial.color
              (TIME_PALETTES timePeriod).celestial.color transitionFactor,
            glowColor := interpolateRgbaColor
              (TIME_PALETTES prev).celestial.glowColor
              (TIME_PALETTES timePeriod).celestial.glowColor transitionFactor },
        timePeriod := timePeriod }
    else
      staticPalette timePeriod
  | none => staticPalette timePeriod

/-- Spec-side definition for the refinement comparison of C8: the spec's
"shortest-path linear" blend of an angle moves along the smaller arc of
the 360-degree circle, i.e. by the representative of `b - a` in the
interval `[-180, 180)`.  (The source performs a plain linear blend; the
claim asserts the two coincide on the palettes at hand.) -/
def shortestAngleDelta (a b : ℚ) : ℚ :=
  (b - a + 180) - 360 * ⌊(b - a + 180) / 360⌋ - 180

/-- Spec-side shortest-path linear interpolation of an angle. -/
def shortestPathLerp (a b t : ℚ) : ℚ :=
  a + shortestAngleDelta a b * t

/-- `BaseEffect` from `src/background/effects/base-effect.js`.  The
subclass-owned animation state (wisps, rays, particle pools, …) is the
abstract `state : σ`; the subclass's `init()` is passed explicitly as a
function `initF : σ → σ` wherever the base class would invoke it. -/
structure BaseEffect (σ : Type) where
  targetTimePeriod : TimePeriod
  isActive : Bool
  time : ℚ
  state : σ

/-- `BaseEffect.setTimePeriod`: record the activation flag and call
`init()` exactly when the effect flips from inactive to active. -/
def BaseEffect.setTimePeriod {σ : Type} (e : BaseEffect σ) (initF : σ → σ)
    (timePeriod : TimePeriod) : BaseEffect σ :=
  let wasActive := e.isActive
  let nowActive := timePeriod == e.targetTimePeriod
  if nowActive && !wasActive then
    { e with isActive := nowActive, state := initF e.state }
  else
    { e with isActive := nowActive }

/-- `BaseEffect.resize`: re-run `init()` only while active. -/
def BaseEffect.resize {σ : Type} (e : BaseEffect σ) (initF : σ → σ) : BaseEffect σ :=
  if e.isActive then { e with state := initF e.state } else e

/-- A `{min, max}` numeric range from the configuration. -/
structure RangeQ where
  min : ℚ
  max : ℚ
deriving DecidableEq

/-- `CONFIG.LIGHT_ORBS.COUNT`. -/
def LIGHT_ORBS_COUNT : ℕ := 22

/-- `CONFIG.LIGHT_ORBS.SIZE`. -/
def LIGHT_ORBS_SIZE : RangeQ := ⟨60, 140⟩

/-- `CONFIG.LIGHT_ORBS.SPEED`. -/
def LIGHT_ORBS_SPEED : ℚ := 0.08

/-- `CONFIG.LIGHT_ORBS.BASE_OPACITY`. -/
def LIGHT_ORBS_BASE_OPACITY : ℚ := 0.15

/-- `CONFIG.LIGHT_ORBS.NIGHT_OPACITY`. -/
def LIGHT_ORBS_NIGHT_OPACITY : ℚ := 0.1

/-- The base orb configuration built in `ParticleSystem.init`. -/
structure OrbConfig where
  size : RangeQ
  speed : ℚ
  color : Rgba
  baseOpacity : ℚ
deriving DecidableEq

/-- A depth layer entry of `DEPTH_LAYERS` in `src/background/particles.js`. -/
structure DepthLayerConfig where
  sizeMultiplier : ℚ
  speedMultiplier : ℚ
  opacityMultiplier : ℚ
  count : ℚ
deriving DecidableEq

/-- `DEPTH_LAYERS.far`. -/
def DEPTH_LAYERS_far : DepthLayerConfig := ⟨0.6, 0.2, 0.5, 0.35⟩

/-- `DEPTH_LAYERS.middle`. -/
def DEPTH_LAYERS_middle : DepthLayerConfig := ⟨1.0, 0.5, 0.7, 0.4⟩

/-- `DEPTH_LAYERS.front`. -/
def DEPTH_LAYERS_front : DepthLayerConfig := ⟨1.4, 0.8, 1.0, 0.25⟩

/-- The exact rational value of the IEEE-754 double `Math.PI`
(`884279719003555 * 2 ^ (-48)`). -/
def MATH_PI : ℚ := 884279719003555 / 281474976710656

/-- Explicit stream of `Math.random()` samples: each draw takes the next
element of the stream. -/
structure Rng where
  seq : ℕ → ℚ
  idx : ℕ

/-- Draw the next `Math.random()` sample. -/
def Rng.next (g : Rng) : ℚ × Rng :=
  (g.seq g.idx, { g with idx := g.idx + 1 })

/-- A `LightOrb` from `src/background/particles.js`.  The JS object keeps
references `config` and `depthLayer` set at construction; the `parent`
reference is replaced by passing the cached viewport dimensions to
`reset`/`update`.  `currentSize` and `opacity` are first written by
`update` and start at 0 here. -/
structure LightOrb where
  config : OrbConfig
  depthLayer : DepthLayerConfig
  size : ℚ
  x : ℚ
  y : ℚ
  phase : ℚ
  phaseY : ℚ
  phaseSize : ℚ
  amplitude : ℚ
  frequency : ℚ
  speed : ℚ
  baseOpacity : ℚ
  time : ℚ
  currentSize : ℚ
  opacity : ℚ
deriving DecidableEq

/-- `LightOrb.reset`: re-randomise size, position, phases, drift
parameters and speed; the vertical position is random across the viewport
only on the initial reset, otherwise just below the bottom edge.  The
random draws happen in the source's order. -/
def LightOrb.reset (o : LightOrb) (w h : ℚ) (initial : Bool) (g : Rng) :
    LightOrb × Rng :=
  let p1 := g.next
  let baseSize := o.config.size.min + p1.1 * (o.config.size.max - o.config.size.min)
  let size := baseSize * o.depthLayer.sizeMultiplier
  let p2 := p1.2.next
  let x := p2.1 * w
  let py : ℚ × Rng :=
    if initial then
      let p3 := p2.2.next
      (p3.1 * h, p3.2)
    else (h + size * 0.5, p2.2)
  let p4 := py.2.next
  let phase := p4.1 * MATH_PI * 2
  let p5 := p4.2.next
  let phaseY := p5.1 * MATH_PI * 2
  let p6 := p5.2.next
  let phaseSize := p6.1 * MATH_PI * 2
  let p7 := p6.2.next
  let amplitude := (20 + p7.1 * 30) * o.depthLayer.sizeMultiplier
  let p8 := p7.2.next
  let frequency := 0.00008 + p8.1 * 0.00004
  let p9 := p8.2.next
  let speed := o.config.speed * (0.3 + p9.1 * 0.4) * o.depthLayer.speedMultiplier
  let baseOpacity := o.config.baseOpacity * o.depthLayer.opacityMultiplier
  ({ o with
      size := size, x := x, y := py.1, phase := phase, phaseY := phaseY,
      phaseSize := phaseSize, amplitude := amplitude, frequency := frequency,
      speed := speed, baseOpacity := baseOpacity, time := 0 }, p9.2)

/-- The `LightOrb` constructor: store the configuration references and
call `reset(true)`. -/
def LightOrb.new (config : OrbConfig) (depthLayer : DepthLayerConfig)
    (w h : ℚ) (g : Rng) : LightOrb × Rng :=
  LightOrb.reset
    { config := config, depthLayer := depthLayer, size := 0, x := 0, y := 0,
      phase := 0, phaseY := 0, phaseSize := 0, amplitude := 0, frequency := 0,
      speed := 0, baseOpacity := 0, time := 0, currentSize := 0, opacity := 0 }
    w h true g

/-- `LightOrb.update`: sway, upward drift, size breathing and opacity
pulse; when the orb has drifted above the top edge it is recycled by a
non-initial `reset`.  `Math.sin` is the oracle `sinQ`. -/
def LightOrb.update (o : LightOrb) (sinQ : ℚ → ℚ) (w h deltaTime : ℚ)
    (g : Rng) : LightOrb × Rng :=
  let time := o.time + deltaTime
  let swayX := sinQ (time * o.frequency + o.phase) * o.amplitude
  let x := o.x + swayX * 0.0003 * deltaTime
  let y := o.y - o.speed * deltaTime * 0.003
  let currentSize := o.size * (0.95 + sinQ (time * 0.0003 + o.phaseSize) * 0.05)
  let pulse := sinQ (time * 0.0004 + o.phaseY) * 0.3
  let opacity := o.baseOpacity * (0.7 + pulse * 0.3)
  let o2 := { o with
    time := time, x := x, y := y, currentSize := currentSize,
    opacity := opacity }
  if y < -o2.size then o2.reset w h false g else (o2, g)

/-- `ParticleSystem` from `src/background/particles.js`: the three depth
layers plus the cached viewport dimensions. -/
structure ParticleSystem where
  far : List LightOrb
  middle : List LightOrb
  front : List LightOrb
  timePeriod : TimePeriod
  width : ℚ
  height : ℚ

/-- The inner loop of `ParticleSystem.init`: build `count` orbs for a
layer, threading the random stream. -/
def mkOrbList (config : OrbConfig) (layer : DepthLayerConfig) (w h : ℚ) :
    ℕ → Rng → List LightOrb × Rng
  | 0, g => ([], g)
  | n + 1, g =>
    let p1 := LightOrb.new config layer w h g
    let p2 := mkOrbList config layer w h n p1.2
    (p1.1 :: p2.1, p2.2)

/-- `ParticleSystem.init`: clear the layers and rebuild each with
`Math.floor(totalCount * layer.count)` orbs; the base opacity is the
night value exactly when the period is NIGHT. -/
def ParticleSystem.init (ps : ParticleSystem) (timePeriod : TimePeriod)
    (g : Rng) : ParticleSystem × Rng :=
  let baseConfig : OrbConfig :=
    { size := LIGHT_ORBS_SIZE, speed := LIGHT_ORBS_SPEED,
      color := ⟨120, 140, 180, 1⟩,
      baseOpacity :=
        if timePeriod = NIGHT then LIGHT_ORBS_NIGHT_OPACITY
        else LIGHT_ORBS_BASE_OPACITY }
  let pFar := mkOrbList baseConfig DEPTH_LAYERS_far ps.width ps.height
    (Nat.floor ((LIGHT_ORBS_COUNT : ℚ) * DEPTH_LAYERS_far.count)) g
  let pMiddle := mkOrbList baseConfig DEPTH_LAYERS_middle ps.width ps.height
    (Nat.floor ((LIGHT_ORBS_COUNT : ℚ) * DEPTH_LAYERS_middle.count)) pFar.2
  let pFront := mkOrbList baseConfig DEPTH_LAYERS_front ps.width ps.height
    (Nat.floor ((LIGHT_ORBS_COUNT : ℚ) * DEPTH_LAYERS_front.count)) pMiddle.2
  ({ far := pFar.1, middle := pMiddle.1, front := pFront.1,
     timePeriod := timePeriod, width := ps.width, height := ps.height }, pFront.2)

/-- The per-layer loop of `ParticleSystem.update`. -/
def updateOrbList (sinQ : ℚ → ℚ) (w h deltaTime : ℚ) :
    List LightOrb → Rng → List LightOrb × Rng
  | [], g => ([], g)
  | o :: rest, g =>
    let p1 := o.update sinQ w h deltaTime g
    let p2 := updateOrbList sinQ w h deltaTime rest p1.2
    (p1.1 :: p2.1, p2.2)

/-- `ParticleSystem.update`: update every orb of every layer. -/
def ParticleSystem.update (ps : ParticleSystem) (sinQ : ℚ → ℚ)
    (deltaTime : ℚ) (g : Rng) : ParticleSystem × Rng :=
  let pFar := updateOrbList sinQ ps.width ps.height deltaTime ps.far g
  let pMiddle := updateOrbList sinQ ps.width ps.height deltaTime ps.middle pFar.2
  let pFront := updateOrbList sinQ ps.width ps.height deltaTime ps.front pMiddle.2
  ({ ps with far := pFar.1, middle := pMiddle.1, front := pFront.1 }, pFront.2)

/-- `ParticleSystem.resize` (lines 277-294): update the cached dimensions
and move every existing orb to `(x / oldWidth) * width`,
`(y / oldHeight) * height`; no orb is added, removed or re-seeded. -/
def ParticleSystem.resize (ps : ParticleSystem) (newWidth newHeight : ℚ) :
    ParticleSystem :=
  let oldWidth := ps.width
  let oldHeight := ps.height
  let rescale : LightOrb → LightOrb := fun o =>
    { o with x := o.x / oldWidth * newWidth, y := o.y / oldHeight * newHeight }
  { ps with
    width := newWidth, height := newHeight,
    far := ps.far.map rescale, middle := ps.middle.map rescale,
    front := ps.front.map rescale }

/-- Total number of orbs across the three depth layers. -/
def ParticleSystem.totalOrbCount (ps : ParticleSystem) : ℕ :=
  ps.far.length + ps.middle.length + ps.front.length

/-- The frame-delta computation of `BackgroundRenderer.animate`
(`src/background/renderer/index.js`, lines 212-218): the single value
`deltaTime` computed here is then passed to every layer's `update` in the
same frame. -/
def computeDeltaTime (lastTime currentTime : ℚ) : ℚ :=
  let rawDelta := currentTime - lastTime
  if lastTime = 0 ∨ rawDelta > 100 then 16 else rawDelta

/-- The rabbit mascot's behavioural states. -/
inductive RabbitState where
  | idle
  | jumping
  | eating
  | sitting
  | sleeping
  | angry
deriving DecidableEq, Fintype

/-- A transient overlay entry (heart or anger mark). -/
structure Heart where
  x : ℚ
  y : ℚ
  opacity : ℚ
  startTime : ℚ
deriving DecidableEq

/-- Sprite grid width of the rabbit pixel art. -/
def SPRITE_WIDTH : ℚ := 25

/-- Sprite grid height of the rabbit pixel art. -/
def SPRITE_HEIGHT : ℚ := 18

/-- `CONFIG.EFFECTS.RABBIT.CLICK_JUMP_DURATION` (milliseconds). -/
def CLICK_JUMP_DURATION : ℚ := 400

/-- The `RabbitCharacter` state (DOM hit-area plumbing omitted). -/
structure RabbitCharacter where
  state : RabbitState
  timePeriod : TimePeriod
  time : ℚ
  x : ℚ
  y : ℚ
  pixelSize : ℚ
  isClicking : Bool
  clickStartTime : ℚ
  jumpOffset : ℚ
  hearts : List Heart
  angerMarks : List Heart
deriving DecidableEq

/-- `RabbitCharacter.getSpriteWidth`. -/
def RabbitCharacter.getSpriteWidth (r : RabbitCharacter) : ℚ :=
  SPRITE_WIDTH * r.pixelSize

/-- `RabbitCharacter.getSpriteHeight`. -/
def RabbitCharacter.getSpriteHeight (r : RabbitCharacter) : ℚ :=
  SPRITE_HEIGHT * r.pixelSize

/-- The period→state switch inside `updateStateForTimePeriod`
(MORNING→jumping, NOON→eating, EVENING→sitting, NIGHT→sleeping). -/
def periodState : TimePeriod → RabbitState
  | MORNING => .jumping
  | NOON => .eating
  | EVENING => .sitting
  | NIGHT => .sleeping

/-- `RabbitCharacter.updateStateForTimePeriod`: no-op while a click
override is active, otherwise derive the state from the period. -/
def RabbitCharacter.updateStateForTimePeriod (r : RabbitCharacter) :
    RabbitCharacter :=
  if r.isClicking then r else { r with state := periodState r.timePeriod }

/-- `RabbitCharacter.onClick`: at NIGHT push an anger mark, turn angry and
schedule the reset after `CLICK_JUMP_DURATION * 0.8` ms; otherwise push a
heart, jump and schedule the reset after `CLICK_JUMP_DURATION` ms.  The
returned rational is the `setTimeout` delay of the scheduled reset. -/
def RabbitCharacter.onClick (r : RabbitCharacter) : RabbitCharacter × ℚ :=
  if r.timePeriod = NIGHT then
    ({ r with
        isClicking := true, clickStartTime := r.time, state := .angry,
        angerMarks := r.angerMarks ++
          [{ x := r.x + r.getSpriteWidth / 2, y := r.y - r.getSpriteHeight / 2,
             opacity := 1, startTime := r.time }] },
     CLICK_JUMP_DURATION * 0.8)
  else
    ({ r with
        isClicking := true, clickStartTime := r.time, state := .jumping,
        hearts := r.hearts ++
          [{ x := r.x, y := r.y - r.getSpriteHeight / 2 - r.jumpOffset,
             opacity := 1, startTime := r.time }] },
     CLICK_JUMP_DURATION)

/-- The `setTimeout` callback scheduled by `onClick`: clear the click
override and re-derive the state from the period. -/
def RabbitCharacter.onClickTimeout (r : RabbitCharacter) : RabbitCharacter :=
  RabbitCharacter.updateStateForTimePeriod { r with isClicking := false }

/-- Every layer built by `mkOrbList` has exactly the requested number of
orbs, whatever the random stream produces. -/
lemma mkOrbList_length (config : OrbConfig) (layer : DepthLayerConfig)
    (w h : ℚ) : ∀ (n : ℕ) (g : Rng),
    ((mkOrbList config layer w h n g).1).length = n := by
  intro n
  induction n with
  | zero => intro g; rfl
  | succ k ih => intro g; simp [mkOrbList, ih]

/-- `updateOrbList` returns one orb per input orb: a recycled orb is reset
in place, never dropped. -/
lemma updateOrbList_length (sinQ : ℚ → ℚ) (w h dt : ℚ) :
    ∀ (l : List LightOrb) (g : Rng),
    ((updateOrbList sinQ w h dt l g).1).length = l.length := by
  intro l
  induction l with
  | nil => intro g; rfl
  | cons o rest ih => intro g; simp [updateOrbList, ih]

/-- When the plain difference of two angles already lies in
`[-180, 180)`, the shortest-path delta is that plain difference. -/
lemma shortestAngleDelta_of_small (a b : ℚ) (h1 : -180 ≤ b - a)
    (h2 : b - a < 180) : shortestAngleDelta a b = b - a := by
  unfold shortestAngleDelta
  have hfl : ⌊(b - a + 180) / 360⌋ = 0 := by
    rw [Int.floor_eq_zero_iff, Set.mem_Ico]
    constructor
    · apply div_nonneg
      · linarith
      · norm_num
    · rw [div_lt_one (by norm_num)]
      linarith
  rw [hfl]
  ring

/-- On the four palettes of `TIME_PALETTES`, the plain angle difference
already is the shortest way around the 360-degree circle (every pairwise
difference has magnitude at most 135 degrees). -/
lemma shortestAngleDelta_palettes :
    ∀ p1 p2 : TimePeriod,
      shortestAngleDelta (TIME_PALETTES p1).gradientAngle
          (TIME_PALETTES p2).gradientAngle =
        (TIME_PALETTES p2).gradientAngle - (TIME_PALETTES p1).gradientAngle := by
  intro p1 p2
  apply shortestAngleDelta_of_small <;> cases p1 <;> cases p2 <;>
    norm_num [TIME_PALETTES]

/-- C1: the claim asserts `getColorPalette(p2, 0, p1)` returns `p1`'s
static palette.  The code skips the blend branch whenever
`transitionFactor > 0` fails, so at factor exactly 0 it returns the
static palette of the TARGET period `p2` instead — here at target NOON
with previous NIGHT, the result is NOON's palette and its `bg` differs
from NIGHT's.  This contradicts the function's own JSDoc
(`0 = previousTimePeriod`). -/
theorem getColorPalette_factor_zero_ignores_previous :
    getColorPalette NOON 0 (some NIGHT) = staticPalette NOON ∧
    (getColorPalette NOON 0 (some NIGHT)).bg ≠ (TIME_PALETTES NIGHT).bg := by
  have h1 : getColorPalette NOON 0 (some NIGHT) = staticPalette NOON := by
    simp [getColorPalette]
  refine ⟨h1, ?_⟩
  rw [h1]
  simp [staticPalette, TIME_PALETTES]

/-- C2: `getTimePeriod` classifies every hour of the 24-hour clock into
exactly the period whose configured range contains it — the four ranges
(NIGHT wrapping past midnight) partition the clock with no gaps or
overlaps — and in particular hour 4 is NIGHT, 5 and 10 are MORNING, and
11 is NOON. -/
theorem getTimePeriod_partition :
    (∀ hour : ℕ, hour < 24 →
      ((getTimePeriod hour = MORNING ↔ inPeriod MORNING hour) ∧
       (getTimePeriod hour = NOON ↔ inPeriod NOON hour) ∧
       (getTimePeriod hour = EVENING ↔ inPeriod EVENING hour) ∧
       (getTimePeriod hour = NIGHT ↔ inPeriod NIGHT hour))) ∧
    getTimePeriod 4 = NIGHT ∧ getTimePeriod 5 = MORNING ∧
    getTimePeriod 10 = MORNING ∧ getTimePeriod 11 = NOON := by
  decide

/-- Witness for C2 at hour 7. -/
theorem getTimePeriod_partition_witness :
    getTimePeriod 7 = MORNING ↔ inPeriod MORNING 7 :=
  (getTimePeriod_partition.1 7 (by decide)).1

/-- C3: `BaseEffect.setTimePeriod` sets `isActive` to the comparison with
the target period and calls `init()` exactly on the inactive→active edge;
a call that keeps the effect inactive, or keeps it active, leaves the
internal state untouched; and `resize()` re-runs `init()` exactly when
the effect is currently active. -/
theorem baseEffect_setTimePeriod_edge (σ : Type) (initF : σ → σ)
    (e : BaseEffect σ) (p : TimePeriod) :
    ((e.setTimePeriod initF p).isActive = (p == e.targetTimePeriod)) ∧
    (e.isActive = false → p ≠ e.targetTimePeriod →
      (e.setTimePeriod initF p).state = e.state) ∧
    (e.isActive = true → p = e.targetTimePeriod →
      (e.setTimePeriod initF p).state = e.state) ∧
    (e.isActive = false → p = e.targetTimePeriod →
      (e.setTimePeriod initF p).state = initF e.state) ∧
    ((e.resize initF).state = if e.isActive then initF e.state else e.state) := by
  refine ⟨?_, fun ha hne => ?_, fun ha heq => ?_, fun ha heq => ?_, ?_⟩
  · by_cases hb : (p == e.targetTimePeriod) && !e.isActive <;>
      simp [BaseEffect.setTimePeriod, hb]
  · simp [BaseEffect.setTimePeriod, ha, beq_iff_eq, hne]
  · simp [BaseEffect.setTimePeriod, ha]
  · simp [BaseEffect.setTimePeriod, ha, heq]
  · by_cases hb : e.isActive <;> simp [BaseEffect.resize, hb]

/-- Witness for C3: an inactive NOON effect told it is MORNING keeps its
state. -/
theorem baseEffect_setTimePeriod_edge_witness :
    (BaseEffect.setTimePeriod
      { targetTimePeriod := NOON, isActive := false, time := 0, state := (0 : ℚ) }
      (fun x => x + 1) MORNING).state = 0 :=
  (baseEffect_setTimePeriod_edge ℚ (fun x => x + 1)
    { targetTimePeriod := NOON, isActive := false, time := 0, state := 0 }
    MORNING).2.1 rfl (by decide)

/-- C4: the renderer's per-frame delta is the fixed 16 ms fallback on the
first frame (`lastTime = 0`) and whenever the raw gap exceeds 100 ms, and
is the raw gap otherwise; this single value is what `animate` passes to
every layer's `update`. -/
theorem computeDeltaTime_clamp (lastTime currentTime : ℚ) :
    (lastTime = 0 → computeDeltaTime lastTime currentTime = 16) ∧
    (currentTime - lastTime > 100 → computeDeltaTime lastTime currentTime = 16) ∧
    (lastTime ≠ 0 → currentTime - lastTime ≤ 100 →
      computeDeltaTime lastTime currentTime = currentTime - lastTime) := by
  refine ⟨fun h => ?_, fun h => ?_, fun h1 h2 => ?_⟩
  · simp [computeDeltaTime, h]
  · simp [computeDeltaTime, h]
  · have hnot : ¬(lastTime = 0 ∨ currentTime - lastTime > 100) := by
      push_neg
      exact ⟨h1, h2⟩
    simp [computeDeltaTime, hnot]

/-- Witness for C4: first frame, anomalous gap, and a normal 50 ms gap. -/
theorem computeDeltaTime_clamp_witness :
    computeDeltaTime 0 50 = 16 ∧ computeDeltaTime 10 200 = 16 ∧
    computeDeltaTime 10 60 = 50 := by
  refine ⟨(computeDeltaTime_clamp 0 50).1 rfl,
    (computeDeltaTime_clamp 10 200).2.1 (by norm_num), ?_⟩
  have h := (computeDeltaTime_clamp 10 60).2.2 (by norm_num) (by norm_num)
  rw [h]
  norm_num

/-- C5: at transition factor 1 the blend branch is skipped and
`getColorPalette` returns exactly the static definition of the target
period, whatever previous period is supplied; in particular
`getColorPalette(p, 1, p)` equals `getColorPalette(p)` (whose JS default
arguments are factor 1 and previous `null`). -/
theorem getColorPalette_factor_one :
    ∀ p prev : TimePeriod,
      getColorPalette p 1 (some prev) = getColorPalette p 1 none ∧
      getColorPalette p 1 (some prev) = staticPalette p := by
  intro p prev
  constructor <;> simp [getColorPalette]

/-- C6: at each of the four period boundaries (05:00, 11:00, 17:00,
20:00) `getTimeTransition` yields the eased midpoint factor 1/2, and at
each edge of the 30-minute transition window (signed distance exactly
±0.5 h) the eased factor is exactly 0 or exactly 1. -/
theorem getTimeTransition_boundary_factor :
    ((getTimeTransition 5 0).factor = 1/2 ∧
     (getTimeTransition 11 0).factor = 1/2 ∧
     (getTimeTransition 17 0).factor = 1/2 ∧
     (getTimeTransition 20 0).factor = 1/2) ∧
    ((getTimeTransition 4 30).factor = 0 ∧
     (getTimeTransition 5 30).factor = 1 ∧
     (getTimeTransition 10 30).factor = 0 ∧
     (getTimeTransition 11 30).factor = 1 ∧
     (getTimeTransition 16 30).factor = 0 ∧
     (getTimeTransition 17 30).factor = 1 ∧
     (getTimeTransition 19 30).factor = 0 ∧
     (getTimeTransition 20 30).factor = 1) := by
  norm_num [getTimeTransition, getTimeTransitionGo, transitionTable,
    TIME_PERIODS, easeInOutCubic, max_def, min_def, abs_le]

/-- C7: clicking the mascot at NIGHT appends exactly one anger mark with
opacity 1 and the current time as start time, appends no heart, and turns
the state angry; clicking in any other period appends a heart, turns the
state to jumping with the reset scheduled after `CLICK_JUMP_DURATION` ms,
after which the state reverts to the period-derived one — at NOON, the
un-clicked state is eating. -/
theorem rabbit_onClick_periods (r : RabbitCharacter) :
    (r.timePeriod = NIGHT →
      (r.onClick.1.angerMarks = r.angerMarks ++
          [{ x := r.x + r.getSpriteWidth / 2, y := r.y - r.getSpriteHeight / 2,
             opacity := 1, startTime := r.time }] ∧
       r.onClick.1.hearts = r.hearts ∧
       r.onClick.1.state = .angry)) ∧
    (r.timePeriod ≠ NIGHT →
      (r.onClick.1.hearts = r.hearts ++
          [{ x := r.x, y := r.y - r.getSpriteHeight / 2 - r.jumpOffset,
             opacity := 1, startTime := r.time }] ∧
       r.onClick.1.state = .jumping ∧
       r.onClick.2 = CLICK_JUMP_DURATION ∧
       r.onClick.1.onClickTimeout.state = periodState r.timePeriod)) ∧
    (r.timePeriod = NOON → r.isClicking = false →
      r.updateStateForTimePeriod.state = .eating) := by
  refine ⟨fun h => ?_, fun h => ?_, fun h hc => ?_⟩
  · simp [RabbitCharacter.onClick, h]
  · simp [RabbitCharacter.onClick, RabbitCharacter.onClickTimeout,
      RabbitCharacter.updateStateForTimePeriod, h]
  · simp [RabbitCharacter.updateStateForTimePeriod, hc, h, periodState]

/-- Witness for C7: a concrete sleeping rabbit clicked at NIGHT turns
angry. -/
theorem rabbit_onClick_periods_witness :
    (RabbitCharacter.onClick
      { state := .sleeping, timePeriod := NIGHT, time := 5, x := 70, y := 500,
        pixelSize := 2.5, isClicking := false, clickStartTime := 0,
        jumpOffset := 0, hearts := [], angerMarks := [] }).1.state = .angry :=
  ((rabbit_onClick_periods
      { state := .sleeping, timePeriod := NIGHT, time := 5, x := 70, y := 500,
        pixelSize := 2.5, isClicking := false, clickStartTime := 0,
        jumpOffset := 0, hearts := [], angerMarks := [] }).1 rfl).2.2

/-- C8: during a transition (factor strictly between 0 and 1) the blended
gradient angle equals the spec's shortest-path linear interpolation of
the two bracketing periods' static angles (the plain blend of the code
coincides with the shorter way around the circle on these palettes), and
the celestial x and y are the plain linear interpolations of the two
static positions. -/
theorem getColorPalette_blend_angle_celestial (p1 p2 : TimePeriod) (t : ℚ)
    (h0 : 0 < t) (h1 : t < 1) :
    (getColorPalette p2 t (some p1)).gradientAngle =
      shortestPathLerp (TIME_PALETTES p1).gradientAngle
        (TIME_PALETTES p2).gradientAngle t ∧
    (getColorPalette p2 t (some p1)).celestial.x =
      (TIME_PALETTES p1).celestial.x +
        ((TIME_PALETTES p2).celestial.x - (TIME_PALETTES p1).celestial.x) * t ∧
    (getColorPalette p2 t (some p1)).celestial.y =
      (TIME_PALETTES p1).celestial.y +
        ((TIME_PALETTES p2).celestial.y - (TIME_PALETTES p1).celestial.y) * t := by
  have hcond : 0 < t ∧ t < 1 := ⟨h0, h1⟩
  simp only [getColorPalette, if_pos hcond, shortestPathLerp,
    shortestAngleDelta_palettes p1 p2]
  refine ⟨?_, ?_, ?_⟩ <;> trivial

/-- Witness for C8: NOON→EVENING halfway through the transition. -/
theorem getColorPalette_blend_angle_celestial_witness :
    (getColorPalette EVENING (1/2) (some NOON)).gradientAngle =
      shortestPathLerp (TIME_PALETTES NOON).gradientAngle
        (TIME_PALETTES EVENING).gradientAngle (1/2) ∧
    (getColorPalette EVENING (1/2) (some NOON)).celestial.x =
      (TIME_PALETTES NOON).celestial.x +
        ((TIME_PALETTES EVENING).celestial.x -
          (TIME_PALETTES NOON).celestial.x) * (1/2) ∧
    (getColorPalette EVENING (1/2) (some NOON)).celestial.y =
      (TIME_PALETTES NOON).celestial.y +
        ((TIME_PALETTES EVENING).celestial.y -
          (TIME_PALETTES NOON).celestial.y) * (1/2) :=
  getColorPalette_blend_angle_celestial NOON EVENING (1/2) (by norm_num)
    (by norm_num)

/-- C9: `ParticleSystem.resize` maps every existing orb of every layer to
the same orb with `x` scaled by newWidth/oldWidth and `y` scaled by
newHeight/oldHeight — all other per-orb fields unchanged — and discards
or respawns nothing: the orb count is preserved. -/
theorem particleSystem_resize_repositions (ps : ParticleSystem)
    (newWidth newHeight : ℚ) :
    (ps.resize newWidth newHeight).far =
      ps.far.map (fun o => { o with
        x := o.x * (newWidth / ps.width),
        y := o.y * (newHeight / ps.height) }) ∧
    (ps.resize newWidth newHeight).middle =
      ps.middle.map (fun o => { o with
        x := o.x * (newWidth / ps.width),
        y := o.y * (newHeight / ps.height) }) ∧
    (ps.resize newWidth newHeight).front =
      ps.front.map (fun o => { o with
        x := o.x * (newWidth / ps.width),
        y := o.y * (newHeight / ps.height) }) ∧
    (ps.resize newWidth newHeight).totalOrbCount = ps.totalOrbCount := by
  have hfun : (fun o : LightOrb => { o with
      x := o.x / ps.width * newWidth,
      y := o.y / ps.height * newHeight }) =
      (fun o : LightOrb => { o with
        x := o.x * (newWidth / ps.width),
        y := o.y * (newHeight / ps.height) }) := by
    funext o
    simp only [div_mul_eq_mul_div, mul_div_assoc]
  refine ⟨?_, ?_, ?_, ?_⟩ <;>
    simp [ParticleSystem.resize, ParticleSystem.totalOrbCount, hfun]

/-- C10: every `ParticleSystem.init` builds floor(22·0.35) = 7 far,
floor(22·0.4) = 8 middle and floor(22·0.25) = 5 front orbs — 20 in all,
not the configured total of 22, because each layer's share is floored
independently — and both `update` and `resize` preserve the total orb
count. -/
theorem particleSystem_init_total_orbs :
    (∀ (ps : ParticleSystem) (tp : TimePeriod) (g : Rng),
      (ps.init tp g).1.far.length = 7 ∧
      (ps.init tp g).1.middle.length = 8 ∧
      (ps.init tp g).1.front.length = 5 ∧
      (ps.init tp g).1.totalOrbCount = 20) ∧
    (Nat.floor ((LIGHT_ORBS_COUNT : ℚ) * DEPTH_LAYERS_far.count) = 7 ∧
     Nat.floor ((LIGHT_ORBS_COUNT : ℚ) * DEPTH_LAYERS_middle.count) = 8 ∧
     Nat.floor ((LIGHT_ORBS_COUNT : ℚ) * DEPTH_LAYERS_front.count) = 5) ∧
    (20 : ℕ) ≠ LIGHT_ORBS_COUNT ∧
    (∀ (ps : ParticleSystem) (sinQ : ℚ → ℚ) (dt : ℚ) (g : Rng),
      (ps.update sinQ dt g).1.totalOrbCount = ps.totalOrbCount) ∧
    (∀ (ps : ParticleSystem) (nw nh : ℚ),
      (ps.resize nw nh).totalOrbCount = ps.totalOrbCount) := by
  have hf : Nat.floor ((LIGHT_ORBS_COUNT : ℚ) * DEPTH_LAYERS_far.count) = 7 := by
    rw [Nat.floor_eq_iff (by norm_num [LIGHT_ORBS_COUNT, DEPTH_LAYERS_far])]
    norm_num [LIGHT_ORBS_COUNT, DEPTH_LAYERS_far]
  have hm : Nat.floor ((LIGHT_ORBS_COUNT : ℚ) * DEPTH_LAYERS_middle.count) = 8 := by
    rw [Nat.floor_eq_iff (by norm_num [LIGHT_ORBS_COUNT, DEPTH_LAYERS_middle])]
    norm_num [LIGHT_ORBS_COUNT, DEPTH_LAYERS_middle]
  have hfr : Nat.floor ((LIGHT_ORBS_COUNT : ℚ) * DEPTH_LAYERS_front.count) = 5 := by
    rw [Nat.floor_eq_iff (by norm_num [LIGHT_ORBS_COUNT, DEPTH_LAYERS_front])]
    norm_num [LIGHT_ORBS_COUNT, DEPTH_LAYERS_front]
  refine ⟨fun ps tp g => ?_, ⟨hf, hm, hfr⟩, by decide, fun ps sinQ dt g => ?_,
    fun ps nw nh => ?_⟩
  · simp [ParticleSystem.init, ParticleSystem.totalOrbCount, mkOrbList_length,
      hf, hm, hfr]
  · simp [ParticleSystem.update, ParticleSystem.totalOrbCount,
      updateOrbList_length]
  · simp [ParticleSystem.resize, ParticleSystem.totalOrbCount]

end Tachibana
